import Mathlib

/-!
Shallow embedding of the blotato-content-flagging core
(src/patterns.ts, src/types.ts, src/content-flagging.ts).

Strings are modelled as `List Char`.  Each JavaScript regular expression of
the pattern catalog is compiled to an executable matcher built from a small
nondeterministic combinator set (a matcher maps a state of the scan, namely
the previous character and the remaining input, to the list of states
reachable after consuming a match of the fragment).  A regular expression
matches a string when some starting position admits a successful run, which
is exactly the backtracking semantics of `String.prototype.match`.
Word boundaries, character classes and case folding follow the ASCII
behaviour of the source regexes; JavaScript numbers are modelled as exact
rationals, which agrees with the source on every quantity compared in the
claims.
-/

namespace ContentFlagging

/-- ASCII lower-casing, the case folding relevant to the /i flag here. -/
def lowAscii (c : Char) : Char :=
  if 'A' ≤ c && c ≤ 'Z' then Char.ofNat (c.toNat + 32) else c

/-- The class \d of the source regexes. -/
def isDigitC (c : Char) : Bool := '0' ≤ c && c ≤ '9'

/-- The class \w = [A-Za-z0-9_] of the source regexes. -/
def isWordC (c : Char) : Bool :=
  ('a' ≤ c && c ≤ 'z') || ('A' ≤ c && c ≤ 'Z') || isDigitC c || c = '_'

/-- The class \s restricted to the whitespace forms the engine can meet. -/
def isSpaceC (c : Char) : Bool :=
  c = ' ' || c = '\t' || c = '\n' || c = '\r' || c = Char.ofNat 11 || c = Char.ofNat 12

/-- Characters matched by the dot of the source regexes (no line terminators). -/
def dotC (c : Char) : Bool :=
  !(c = '\n' || c = '\r' || c = Char.ofNat 0x2028 || c = Char.ofNat 0x2029)

/-- Word-character test seen by a boundary assertion, edges count as non-word. -/
def isWordOpt : Option Char → Bool
  | none => false
  | some c => isWordC c

/-- The \b assertion: a word/non-word transition between two neighbours. -/
def boundaryB (a b : Option Char) : Bool := isWordOpt a != isWordOpt b

/-- A scan state: the character just before the cursor and the rest of the input. -/
abbrev RxState := Option Char × List Char

/-- A matcher fragment: all states reachable after consuming one match of it. -/
abbrev Rx := RxState → List RxState

/-- Sequencing of matcher fragments. -/
def rseq (m1 m2 : Rx) : Rx := fun s => (m1 s).flatMap m2

/-- Alternation of matcher fragments. -/
def ralt (ms : List Rx) : Rx := fun s => ms.flatMap (fun m => m s)

/-- Case-sensitive literal. -/
def rlitAux : List Char → RxState → List RxState
  | [], s => [s]
  | _ :: _, (_, []) => []
  | p :: ps, (_, c :: cs) => if c = p then rlitAux ps (some c, cs) else []

def rlit (pat : List Char) : Rx := rlitAux pat

/-- Case-insensitive literal, for regexes carrying the /i flag. -/
def rlitCIAux : List Char → RxState → List RxState
  | [], s => [s]
  | _ :: _, (_, []) => []
  | p :: ps, (_, c :: cs) =>
      if lowAscii c = lowAscii p then rlitCIAux ps (some c, cs) else []

def rlitCI (pat : List Char) : Rx := rlitCIAux pat

/-- One character of a class. -/
def rcls (p : Char → Bool) : Rx := fun s =>
  match s with
  | (_, []) => []
  | (_, c :: cs) => if p c then [(some c, cs)] else []

/-- Zero or more characters of a class (all stop points are offered). -/
def rstarAux (p : Char → Bool) : Option Char → List Char → List RxState
  | a, [] => [(a, [])]
  | a, c :: cs => (a, c :: cs) :: (if p c then rstarAux p (some c) cs else [])

def rstar (p : Char → Bool) : Rx := fun s => rstarAux p s.1 s.2

/-- One or more characters of a class: the + quantifier. -/
def rplus (p : Char → Bool) : Rx := rseq (rcls p) (rstar p)

/-- Exactly n characters of a class: the {n} quantifier. -/
def rtimes (p : Char → Bool) : Nat → Rx
  | 0 => fun s => [s]
  | n + 1 => rseq (rcls p) (rtimes p n)

/-- At least n characters of a class: the {n,} quantifier. -/
def ratleast (p : Char → Bool) (n : Nat) : Rx := rseq (rtimes p n) (rstar p)

/-- An optional character of a class: the ? quantifier. -/
def ropt (p : Char → Bool) : Rx := fun s => s :: rcls p s

/-- The \b assertion as a fragment. -/
def rbound : Rx := fun s => if boundaryB s.1 s.2.head? then [s] else []

/-- Case-insensitive literal prefix test, used by the negative lookahead. -/
def leadsCI : List Char → List Char → Bool
  | [], _ => true
  | _ :: _, [] => false
  | p :: ps, c :: cs => (lowAscii c = lowAscii p) && leadsCI ps cs

/-- Negative lookahead on a literal, for (?!yourself). -/
def rnlaCI (pat : List Char) : Rx := fun s => if leadsCI pat s.2 then [] else [s]

/-- Search for a match starting at any position, as String.prototype.match does. -/
def rxSearchAux (m : Rx) : Option Char → List Char → Bool
  | a, [] => !(m (a, [])).isEmpty
  | a, c :: cs => !(m (a, c :: cs)).isEmpty || rxSearchAux m (some c) cs

def rxSearch (m : Rx) (s : List Char) : Bool := rxSearchAux m none s

/-- A compiled pattern: does this regex find a match in the string. -/
def Pat := List Char → Bool

def rpat (m : Rx) : Pat := rxSearch m

/-- The backreference regex (.)\1{4,}: five consecutive copies of one
character (the dot excludes line terminators); compiled directly since a
backreference leaves the combinator fragment language. -/
def repetitionSearch : List Char → Bool
  | c1 :: c2 :: c3 :: c4 :: c5 :: rest =>
      (dotC c1 && c1 == c2 && c1 == c3 && c1 == c4 && c1 == c5) ||
        repetitionSearch (c2 :: c3 :: c4 :: c5 :: rest)
  | _ => false

/-- The apostrophe character, spelled by code point. -/
def apos : Char := Char.ofNat 39

/-! ### src/patterns.ts -/

def SPAM_PATTERNS_phrases : List Pat :=
  [ rpat (rlitCI "click here".data)
  , rpat (rlitCI "free money".data)
  , rpat (rlitCI "make money fast".data)
  , rpat (rlitCI "guaranteed profit".data)
  , rpat (rlitCI "limited time offer".data)
  , rpat (rlitCI "act now".data)
  , rpat (rlitCI "no risk".data)
  , rpat (rlitCI "get rich quick".data)
  , rpat (rlitCI "work from home".data)
  , rpat (rseq (rlitCI "earn ".data) (rseq (ropt (fun c => c = '$')) (rplus isDigitC))) ]

def SPAM_PATTERNS_repetition : Pat := repetitionSearch

def capsOrSpaceC (c : Char) : Bool := ('A' ≤ c && c ≤ 'Z') || isSpaceC c

def SPAM_PATTERNS_excessiveCaps : Pat :=
  rpat (rseq rbound (rseq (ratleast capsOrSpaceC 10) rbound))

def SPAM_PATTERNS_suspiciousUrls : List Pat :=
  [ rpat (rlitCI "bit.ly".data)
  , rpat (rlitCI "tinyurl".data)
  , rpat (rlitCI "short.link".data) ]

def HATE_SPEECH_PATTERNS_slurs : List Pat :=
  [ rpat (rseq rbound (rseq (ralt
      [ rlitCI "hate".data, rlitCI "stupid".data
      , rlitCI "idiot".data, rlitCI "moron".data ]) rbound)) ]

def HATE_SPEECH_PATTERNS_discriminatory : List Pat :=
  [ rpat (rseq (rlitCI "all ".data)
      (rseq (rplus isWordC) (rseq (rlitCI " are ".data) (rplus isWordC))))
  , rpat (rseq (rplus isWordC) (rseq (rlitCI " people are ".data) (rplus isWordC))) ]

def HARASSMENT_PATTERNS_threats : List Pat :=
  [ rpat (rseq (rlitCI "i will ".data) (rseq (rplus isWordC) (rlitCI " you".data)))
  , rpat (rseq (rlitCI "you should ".data) (rseq (rplus isWordC) (rlitCI " yourself".data)))
  , rpat (rlitCI "kill yourself".data)
  , rpat (rlitCI "die".data) ]

def HARASSMENT_PATTERNS_intimidation : List Pat :=
  [ rpat (rlitCI "watch your back".data)
  , rpat (rlitCI ("you".data ++ apos :: "re dead".data))
  , rpat (rlitCI "i know where you live".data) ]

def VIOLENCE_PATTERNS_explicit : List Pat :=
  [ rpat (rseq (rlitCI "kill ".data) (rseq (rnlaCI "yourself".data) (rplus isWordC)))
  , rpat (rseq (rlitCI "murder ".data) (rplus isWordC))
  , rpat (rseq (rlitCI "beat ".data) (rseq (rplus isWordC) (rlitCI " up".data)))
  , rpat (rseq (rlitCI "punch ".data) (rplus isWordC)) ]

def VIOLENCE_PATTERNS_weapons : List Pat :=
  [ rpat (rseq rbound (rseq (ralt
      [ rlitCI "gun".data, rlitCI "knife".data
      , rlitCI "bomb".data, rlitCI "weapon".data ]) rbound)) ]

def ADULT_CONTENT_PATTERNS_explicit : List Pat :=
  [ rpat (rseq rbound (rseq (ralt
      [ rlitCI "sex".data, rlitCI "porn".data
      , rlitCI "nude".data, rlitCI "naked".data ]) rbound))
  , rpat (rlitCI "adult content".data) ]

def MISINFORMATION_PATTERNS_conspiracy : List Pat :=
  [ rpat (rlitCI "conspiracy".data)
  , rpat (rlitCI "government cover".data)
  , rpat (rlitCI "fake news".data) ]

def MISINFORMATION_PATTERNS_medical : List Pat :=
  [ rpat (rseq (rlitCI "cure for ".data) (rplus isWordC))
  , rpat (rlitCI "miracle drug".data)
  , rpat (rlitCI ("doctors don".data ++ apos :: "t want".data)) ]

def PHISHING_PATTERNS_urgency : List Pat :=
  [ rpat (rlitCI "urgent action required".data)
  , rpat (rlitCI "verify your account".data)
  , rpat (rlitCI "suspended account".data)
  , rpat (rlitCI "click to verify".data) ]

def PHISHING_PATTERNS_suspicious : List Pat :=
  [ rpat (rlitCI "enter your password".data)
  , rpat (rlitCI "confirm your details".data)
  , rpat (rlitCI "update your information".data) ]

def emailLocalC (c : Char) : Bool :=
  ('A' ≤ c && c ≤ 'Z') || ('a' ≤ c && c ≤ 'z') || isDigitC c ||
    c = '.' || c = '_' || c = '%' || c = '+' || c = '-'

def emailDomainC (c : Char) : Bool :=
  ('A' ≤ c && c ≤ 'Z') || ('a' ≤ c && c ≤ 'z') || isDigitC c || c = '.' || c = '-'

/-- The class [A-Z|a-z] of the email regex: letters and a literal bar. -/
def emailTldC (c : Char) : Bool :=
  ('A' ≤ c && c ≤ 'Z') || c = '|' || ('a' ≤ c && c ≤ 'z')

def ccSepC (c : Char) : Bool := isSpaceC c || c = '-'

def PERSONAL_INFO_PATTERNS_ssn : Pat :=
  rpat (rseq rbound (rseq (rtimes isDigitC 3) (rseq (rlit "-".data)
    (rseq (rtimes isDigitC 2) (rseq (rlit "-".data)
    (rseq (rtimes isDigitC 4) rbound))))))

def PERSONAL_INFO_PATTERNS_phone : Pat :=
  rpat (rseq rbound (rseq (rtimes isDigitC 3) (rseq (rlit "-".data)
    (rseq (rtimes isDigitC 3) (rseq (rlit "-".data)
    (rseq (rtimes isDigitC 4) rbound))))))

def PERSONAL_INFO_PATTERNS_email : Pat :=
  rpat (rseq rbound (rseq (rplus emailLocalC) (rseq (rlit "@".data)
    (rseq (rplus emailDomainC) (rseq (rlit ".".data)
    (rseq (ratleast emailTldC 2) rbound))))))

def PERSONAL_INFO_PATTERNS_creditCard : Pat :=
  rpat (rseq rbound (rseq (rtimes isDigitC 4) (rseq (ropt ccSepC)
    (rseq (rtimes isDigitC 4) (rseq (ropt ccSepC)
    (rseq (rtimes isDigitC 4) (rseq (ropt ccSepC)
    (rseq (rtimes isDigitC 4) rbound))))))))

/-! ### src/types.ts -/

inductive FlagReason
  | spam | hate_speech | harassment | violence | adult_content
  | misinformation | copyright_violation | phishing | malware
  | inappropriate_language | personal_information
deriving DecidableEq, Repr

inductive SeverityLevel
  | low | medium | high | critical
deriving DecidableEq, Repr

inductive ContentType
  | text | image | video | link
deriving DecidableEq, Repr

/-- ContentItem of src/types.ts; the opaque metadata field is not read by the
core and is omitted. -/
structure ContentItem where
  id : String
  userId : String
  type : ContentType
  text : Option String := none
  url : Option String := none
deriving Repr

structure AnalysisContext where
  platform : Option String := none
  audience : Option String := none
  previousFlags : Option Int := none
deriving Repr

structure ContentFlaggingRequest where
  content : ContentItem
  context : Option AnalysisContext := none
deriving Repr

structure FlagResult where
  isFlagged : Bool
  severity : SeverityLevel
  reasons : List FlagReason
  confidence : ℚ
  details : Option String := none
deriving DecidableEq, Repr

/-! ### src/patterns.ts, PATTERN_MAP -/

def patternsFor : FlagReason → List Pat
  | .spam =>
      SPAM_PATTERNS_phrases ++
        [SPAM_PATTERNS_repetition, SPAM_PATTERNS_excessiveCaps] ++
        SPAM_PATTERNS_suspiciousUrls
  | .hate_speech => HATE_SPEECH_PATTERNS_slurs ++ HATE_SPEECH_PATTERNS_discriminatory
  | .harassment => HARASSMENT_PATTERNS_threats ++ HARASSMENT_PATTERNS_intimidation
  | .violence => VIOLENCE_PATTERNS_explicit ++ VIOLENCE_PATTERNS_weapons
  | .adult_content => ADULT_CONTENT_PATTERNS_explicit
  | .misinformation => MISINFORMATION_PATTERNS_conspiracy ++ MISINFORMATION_PATTERNS_medical
  | .copyright_violation => []
  | .phishing => PHISHING_PATTERNS_urgency ++ PHISHING_PATTERNS_suspicious
  | .malware => []
  | .inappropriate_language => HATE_SPEECH_PATTERNS_slurs
  | .personal_information =>
      [ PERSONAL_INFO_PATTERNS_ssn, PERSONAL_INFO_PATTERNS_phone
      , PERSONAL_INFO_PATTERNS_email, PERSONAL_INFO_PATTERNS_creditCard ]

/-- Key order of the PATTERN_MAP object literal, the order Object.entries
iterates in. -/
def reasonOrder : List FlagReason :=
  [ .spam, .hate_speech, .harassment, .violence, .adult_content
  , .misinformation, .phishing, .copyright_violation, .malware
  , .inappropriate_language, .personal_information ]

def PATTERN_MAP : List (FlagReason × List Pat) :=
  reasonOrder.map (fun r => (r, patternsFor r))

/-! ### src/content-flagging.ts -/

/-- JavaScript falsiness of an optional string field: absent or empty. -/
def strFalsy : Option String → Bool
  | none => true
  | some s => s = ""

/-- JavaScript String.prototype.trim on the whitespace forms modelled here. -/
def trimChars (l : List Char) : List Char :=
  ((l.dropWhile isSpaceC).reverse.dropWhile isSpaceC).reverse

/-- The combined text scanned by every rule:
`(content.text || "") + " " + (content.url || "")`, trimmed. -/
def combinedTextOf (content : ContentItem) : List Char :=
  trimChars ((content.text.getD "").data ++ ' ' :: (content.url.getD "").data)

/-- The guard `context?.previousFlags && context.previousFlags > 3` shared by
calculateConfidence and applyContextAdjustments. -/
def prevFlagsGT3 : Option AnalysisContext → Bool
  | none => false
  | some c =>
      match c.previousFlags with
      | none => false
      | some n => decide (n ≠ 0) && decide (3 < n)

/-- The guard `context?.platform === "twitter"`. -/
def platformIsTwitter : Option AnalysisContext → Bool
  | none => false
  | some c => c.platform = some "twitter"

/-- The guard `context?.audience === "children"`. -/
def audienceIsChildren : Option AnalysisContext → Bool
  | none => false
  | some c => c.audience = some "children"

def createCleanResult : FlagResult :=
  { isFlagged := false
  , severity := .low
  , reasons := []
  , confidence := 0 }

/-- The sublist of patterns that find a match in the text; its length is the
match count of the source (one match array per matching regex). -/
def findPatternMatches (text : List Char) (patterns : List Pat) : List Pat :=
  patterns.filter (fun p => p text)

/-- The dedicated personal-information rule set of content-flagging.ts,
textually the same four regexes as the catalog entry. -/
def findPersonalInfoPatterns (text : List Char) : List Pat :=
  findPatternMatches text
    [ PERSONAL_INFO_PATTERNS_ssn, PERSONAL_INFO_PATTERNS_phone
    , PERSONAL_INFO_PATTERNS_email, PERSONAL_INFO_PATTERNS_creditCard ]

def calculateConfidence (matched : List Pat) (text : List Char)
    (context : Option AnalysisContext) : ℚ :=
  if matched.length = 0 then 0
  else
    let confidence : ℚ := min ((matched.length : ℚ) * 0.2) 0.8
    let textLength := text.length
    let confidence :=
      if textLength < 100 then confidence + 0.2
      else if textLength > 1000 then confidence - 0.1
      else confidence
    let confidence :=
      if prevFlagsGT3 context then confidence + 0.1 else confidence
    min confidence 1

def severityMap : FlagReason → SeverityLevel
  | .spam => .low
  | .hate_speech => .high
  | .harassment => .high
  | .violence => .critical
  | .adult_content => .medium
  | .misinformation => .medium
  | .copyright_violation => .medium
  | .phishing => .high
  | .malware => .critical
  | .inappropriate_language => .low
  | .personal_information => .high

def getSeverityForReason (reason : FlagReason) (confidence : ℚ) : SeverityLevel :=
  let baseSeverity := severityMap reason
  if reason = .harassment then .high
  else if 0.8 < confidence then
    match baseSeverity with
    | .low => .medium
    | .medium => .high
    | .high => .critical
    | .critical => .critical
  else baseSeverity

def severityOrder : List SeverityLevel := [.low, .medium, .high, .critical]

def getHigherSeverity (a b : SeverityLevel) : SeverityLevel :=
  if severityOrder.indexOf b < severityOrder.indexOf a then a else b

def applyContextAdjustments (confidence : ℚ) (reasonCount : Nat)
    (context : Option AnalysisContext) : ℚ :=
  let adjusted := confidence
  let adjusted :=
    if 1 < reasonCount then adjusted + 0.1 * ((reasonCount : ℚ) - 1) else adjusted
  let adjusted :=
    if prevFlagsGT3 context then max (adjusted + 0.2) 0.4 else adjusted
  let adjusted := if platformIsTwitter context then adjusted + 0.05 else adjusted
  let adjusted := if audienceIsChildren context then adjusted + 0.1 else adjusted
  min adjusted 1

def reasonText : FlagReason → String
  | .spam => "spam"
  | .hate_speech => "hate_speech"
  | .harassment => "harassment"
  | .violence => "violence"
  | .adult_content => "adult_content"
  | .misinformation => "misinformation"
  | .copyright_violation => "copyright_violation"
  | .phishing => "phishing"
  | .malware => "malware"
  | .inappropriate_language => "inappropriate_language"
  | .personal_information => "personal_information"

/-- JavaScript Math.round: nearest integer, halves toward positive infinity. -/
def jsRound (q : ℚ) : Int := ⌊q + 0.5⌋

def generateDetails (reasons : List FlagReason) (confidence : ℚ) : String :=
  if reasons.length = 0 then "Content appears to be clean"
  else
    let rText := String.intercalate ", " (reasons.map reasonText)
    let confidencePercent := jsRound (confidence * 100)
    "Detected " ++ rText ++ " with " ++ toString confidencePercent ++ "% confidence"

/-- One iteration of the for-loop over PATTERN_MAP: the accumulator carries
detectedReasons, totalConfidence and maxSeverity. -/
def scanStep (combinedText : List Char) (context : Option AnalysisContext)
    (acc : List FlagReason × ℚ × SeverityLevel) (entry : FlagReason × List Pat) :
    List FlagReason × ℚ × SeverityLevel :=
  let matched := findPatternMatches combinedText entry.2
  if 0 < matched.length then
    let confidence := calculateConfidence matched combinedText context
    let severity := getSeverityForReason entry.1 confidence
    (acc.1 ++ [entry.1], acc.2.1 + confidence, getHigherSeverity acc.2.2 severity)
  else acc

/-- The catalog loop of analyzeContent, started on the empty accumulator. -/
def scanResult (combinedText : List Char) (context : Option AnalysisContext) :
    List FlagReason × ℚ × SeverityLevel :=
  List.foldl (scanStep combinedText context) ([], 0, .low) PATTERN_MAP

/-- detectedReasons after the dedicated personal-information push. -/
def detectedReasonsOf (combinedText : List Char) (context : Option AnalysisContext) :
    List FlagReason :=
  if 0 < (findPersonalInfoPatterns combinedText).length then
    (scanResult combinedText context).1 ++ [.personal_information]
  else (scanResult combinedText context).1

/-- totalConfidence after the dedicated personal-information 0.9 bonus. -/
def totalConfidenceOf (combinedText : List Char) (context : Option AnalysisContext) : ℚ :=
  if 0 < (findPersonalInfoPatterns combinedText).length then
    (scanResult combinedText context).2.1 + 0.9
  else (scanResult combinedText context).2.1

/-- maxSeverity after the dedicated personal-information fold with high. -/
def maxSeverityOf (combinedText : List Char) (context : Option AnalysisContext) :
    SeverityLevel :=
  if 0 < (findPersonalInfoPatterns combinedText).length then
    getHigherSeverity (scanResult combinedText context).2.2 .high
  else (scanResult combinedText context).2.2

/-- adjustedConfidence of analyzeContent. -/
def adjustedConfidenceOf (combinedText : List Char)
    (context : Option AnalysisContext) : ℚ :=
  applyContextAdjustments (totalConfidenceOf combinedText context)
    (detectedReasonsOf combinedText context).length context

/-- analyzeContent of content-flagging.ts; the local bindings of the source
body are lifted to the named definitions just above. -/
def analyzeContent (request : ContentFlaggingRequest) : FlagResult :=
  let content := request.content
  let context := request.context
  if strFalsy content.text && strFalsy content.url then createCleanResult
  else
    let combinedText := combinedTextOf content
    { isFlagged :=
        decide ((0.3 : ℚ) < adjustedConfidenceOf combinedText context) ||
          decide (0 < (detectedReasonsOf combinedText context).length)
    , severity := maxSeverityOf combinedText context
    , reasons := detectedReasonsOf combinedText context
    , confidence := min (adjustedConfidenceOf combinedText context) 1
    , details := some (generateDetails (detectedReasonsOf combinedText context)
        (adjustedConfidenceOf combinedText context)) }

/-! ### Helper notions for the claims -/

/-- Position of a severity in the low-to-critical order. -/
def sevIdx (s : SeverityLevel) : Nat := severityOrder.indexOf s

/-- Match list a single category would get on its own for this request. -/
def soloMatches (request : ContentFlaggingRequest) (r : FlagReason) : List Pat :=
  findPatternMatches (combinedTextOf request.content) (patternsFor r)

/-- Per-category confidence of a single category for this request, the value
the catalog loop adds for it when it hits. -/
def soloConfidence (request : ContentFlaggingRequest) (r : FlagReason) : ℚ :=
  calculateConfidence (soloMatches request r) (combinedTextOf request.content)
    request.context

/-- Literal (case-sensitive) prefix test on character lists. -/
def leadsLit : List Char → List Char → Bool
  | [], _ => true
  | _ :: _, [] => false
  | p :: ps, c :: cs => (p == c) && leadsLit ps cs

/-- Literal substring test on character lists. -/
def hasSub (pat : List Char) : List Char → Bool
  | [] => leadsLit pat []
  | c :: cs => leadsLit pat (c :: cs) || hasSub pat cs

/-! ### Lemmas about the catalog scan -/

/-- A catalog entry is hit when at least one of its rules matches. -/
def hitB (c : List Char) (e : FlagReason × List Pat) : Bool :=
  decide (0 < (findPatternMatches c e.2).length)

/-- The confidence an entry contributes when it is hit. -/
def confOf (c : List Char) (ctx : Option AnalysisContext)
    (e : FlagReason × List Pat) : ℚ :=
  calculateConfidence (findPatternMatches c e.2) c ctx

theorem scanStep_hit {c : List Char} {ctx : Option AnalysisContext}
    {acc : List FlagReason × ℚ × SeverityLevel} {e : FlagReason × List Pat}
    (h : 0 < (findPatternMatches c e.2).length) :
    scanStep c ctx acc e =
      (acc.1 ++ [e.1], acc.2.1 + confOf c ctx e,
        getHigherSeverity acc.2.2 (getSeverityForReason e.1 (confOf c ctx e))) := by
  simp only [scanStep, confOf, if_pos h]

theorem scanStep_miss {c : List Char} {ctx : Option AnalysisContext}
    {acc : List FlagReason × ℚ × SeverityLevel} {e : FlagReason × List Pat}
    (h : ¬ 0 < (findPatternMatches c e.2).length) :
    scanStep c ctx acc e = acc := by
  simp only [scanStep, if_neg h]

theorem scan_reasons (c : List Char) (ctx : Option AnalysisContext) :
    ∀ (l : List (FlagReason × List Pat)) (acc : List FlagReason × ℚ × SeverityLevel),
      (List.foldl (scanStep c ctx) acc l).1 = acc.1 ++ (l.filter (hitB c)).map Prod.fst
  | [], acc => by simp
  | e :: t, acc => by
      by_cases h : 0 < (findPatternMatches c e.2).length
      · rw [List.foldl_cons, scanStep_hit h, scan_reasons c ctx t]
        simp [hitB, h]
      · rw [List.foldl_cons, scanStep_miss h, scan_reasons c ctx t]
        simp [hitB, h]

theorem scan_total (c : List Char) (ctx : Option AnalysisContext) :
    ∀ (l : List (FlagReason × List Pat)) (acc : List FlagReason × ℚ × SeverityLevel),
      (List.foldl (scanStep c ctx) acc l).2.1 =
        acc.2.1 + ((l.filter (hitB c)).map (confOf c ctx)).sum
  | [], acc => by simp
  | e :: t, acc => by
      by_cases h : 0 < (findPatternMatches c e.2).length
      · rw [List.foldl_cons, scanStep_hit h, scan_total c ctx t]
        simp [hitB, h]
        ring
      · rw [List.foldl_cons, scanStep_miss h, scan_total c ctx t]
        simp [hitB, h]

theorem sevIdx_le_getHigher_left (a b : SeverityLevel) :
    sevIdx a ≤ sevIdx (getHigherSeverity a b) := by
  cases a <;> cases b <;> decide

theorem sevIdx_le_getHigher_right (a b : SeverityLevel) :
    sevIdx b ≤ sevIdx (getHigherSeverity a b) := by
  cases a <;> cases b <;> decide

theorem scanStep_sev_mono (c : List Char) (ctx : Option AnalysisContext)
    (acc : List FlagReason × ℚ × SeverityLevel) (e : FlagReason × List Pat) :
    sevIdx acc.2.2 ≤ sevIdx (scanStep c ctx acc e).2.2 := by
  by_cases h : 0 < (findPatternMatches c e.2).length
  · rw [scanStep_hit h]
    exact sevIdx_le_getHigher_left _ _
  · rw [scanStep_miss h]

theorem scan_sev_mono (c : List Char) (ctx : Option AnalysisContext) :
    ∀ (l : List (FlagReason × List Pat)) (acc : List FlagReason × ℚ × SeverityLevel),
      sevIdx acc.2.2 ≤ sevIdx ((List.foldl (scanStep c ctx) acc l).2.2)
  | [], _ => le_refl _
  | e :: t, acc => by
      rw [List.foldl_cons]
      exact le_trans (scanStep_sev_mono c ctx acc e) (scan_sev_mono c ctx t _)

theorem scan_sev_of_hit (c : List Char) (ctx : Option AnalysisContext) :
    ∀ (l : List (FlagReason × List Pat)) (acc : List FlagReason × ℚ × SeverityLevel)
      (e : FlagReason × List Pat), e ∈ l → hitB c e = true →
      sevIdx (getSeverityForReason e.1 (confOf c ctx e)) ≤
        sevIdx ((List.foldl (scanStep c ctx) acc l).2.2)
  | [], _, e, h, _ => absurd h (List.not_mem_nil e)
  | f :: t, acc, e, hmem, hhit => by
      rw [List.foldl_cons]
      rcases List.mem_cons.mp hmem with rfl | hmem2
      · have h0 : 0 < (findPatternMatches c e.2).length := of_decide_eq_true hhit
        refine le_trans ?_ (scan_sev_mono c ctx t _)
        rw [scanStep_hit h0]
        exact sevIdx_le_getHigher_right _ _
      · exact scan_sev_of_hit c ctx t _ e hmem2 hhit

/-! ### Arithmetic bounds -/

theorem calculateConfidence_nonneg (m : List Pat) (t : List Char)
    (ctx : Option AnalysisContext) : 0 ≤ calculateConfidence m t ctx := by
  by_cases h : m.length = 0
  · simp [calculateConfidence, h]
  · have hb : (0.2 : ℚ) ≤ min ((m.length : ℚ) * 0.2) 0.8 := by
      apply le_min
      · have h1 : (1 : ℚ) ≤ (m.length : ℚ) := by
          exact_mod_cast Nat.one_le_iff_ne_zero.mpr h
        nlinarith
      · norm_num
    simp only [calculateConfidence, if_neg h]
    refine le_min ?_ (by norm_num)
    split_ifs <;> linarith

theorem calculateConfidence_le_one (m : List Pat) (t : List Char)
    (ctx : Option AnalysisContext) : calculateConfidence m t ctx ≤ 1 := by
  by_cases h : m.length = 0
  · simp [calculateConfidence, h]
  · simp only [calculateConfidence, if_neg h]
    exact min_le_right _ _

theorem applyContextAdjustments_le_one (x : ℚ) (n : Nat)
    (ctx : Option AnalysisContext) : applyContextAdjustments x n ctx ≤ 1 := by
  simp only [applyContextAdjustments]
  exact min_le_right _ _

theorem applyContextAdjustments_nonneg (x : ℚ) (n : Nat)
    (ctx : Option AnalysisContext) (hx : 0 ≤ x) :
    0 ≤ applyContextAdjustments x n ctx := by
  simp only [applyContextAdjustments]
  refine le_min ?_ (by norm_num)
  have h1 : (0 : ℚ) ≤ (if 1 < n then x + 0.1 * ((n : ℚ) - 1) else x) := by
    split_ifs with hn
    · have h2 : (2 : ℚ) ≤ (n : ℚ) := by exact_mod_cast hn
      nlinarith
    · exact hx
  have hmx : (0.4 : ℚ) ≤
      max ((if 1 < n then x + 0.1 * ((n : ℚ) - 1) else x) + 0.2) 0.4 :=
    le_max_right _ _
  split_ifs at h1 hmx ⊢ <;> linarith

theorem applyContextAdjustments_boost_ge (x : ℚ) (n : Nat)
    (ctx : Option AnalysisContext) (h : prevFlagsGT3 ctx = true) :
    0.4 ≤ applyContextAdjustments x n ctx := by
  simp only [applyContextAdjustments, h, if_true]
  refine le_min ?_ (by norm_num)
  have hmx : (0.4 : ℚ) ≤
      max ((if 1 < n then x + 0.1 * ((n : ℚ) - 1) else x) + 0.2) 0.4 :=
    le_max_right _ _
  split_ifs at hmx ⊢ <;> linarith

theorem applyContextAdjustments_ge (x : ℚ) (n : Nat)
    (ctx : Option AnalysisContext) (hn : 1 < n) :
    min (x + 0.1) 1 ≤ applyContextAdjustments x n ctx := by
  simp only [applyContextAdjustments, if_pos hn]
  have h2 : (2 : ℚ) ≤ (n : ℚ) := by exact_mod_cast hn
  have ha1 : x + 0.1 ≤ x + 0.1 * ((n : ℚ) - 1) := by nlinarith
  refine min_le_min ?_ le_rfl
  have hmx : x + 0.1 * ((n : ℚ) - 1) ≤
      max (x + 0.1 * ((n : ℚ) - 1) + 0.2) 0.4 :=
    le_trans (by linarith) (le_max_left _ _)
  split_ifs <;> linarith

theorem applyContextAdjustments_zero (ctx : Option AnalysisContext)
    (h : prevFlagsGT3 ctx = false) :
    applyContextAdjustments 0 0 ctx ≤ 0.3 := by
  simp only [applyContextAdjustments, h, Bool.false_eq_true, if_false,
    if_neg (by norm_num : ¬ (1 : Nat) < 0)]
  split_ifs <;> exact le_trans (min_le_left _ _) (by norm_num)

/-! ### Unfolding analyzeContent along its two paths -/

theorem analyzeContent_clean (request : ContentFlaggingRequest)
    (h : (strFalsy request.content.text && strFalsy request.content.url) = true) :
    analyzeContent request = createCleanResult := by
  simp only [analyzeContent, h, if_true]

theorem analyzeContent_pipeline (request : ContentFlaggingRequest)
    (h : (strFalsy request.content.text && strFalsy request.content.url) = false) :
    analyzeContent request =
      { isFlagged :=
          decide ((0.3 : ℚ) <
              adjustedConfidenceOf (combinedTextOf request.content) request.context) ||
            decide (0 <
              (detectedReasonsOf (combinedTextOf request.content) request.context).length)
      , severity := maxSeverityOf (combinedTextOf request.content) request.context
      , reasons := detectedReasonsOf (combinedTextOf request.content) request.context
      , confidence :=
          min (adjustedConfidenceOf (combinedTextOf request.content) request.context) 1
      , details := some (generateDetails
          (detectedReasonsOf (combinedTextOf request.content) request.context)
          (adjustedConfidenceOf (combinedTextOf request.content) request.context)) } := by
  simp only [analyzeContent, h, Bool.false_eq_true, if_false]

theorem detectedReasons_eq (c : List Char) (ctx : Option AnalysisContext) :
    detectedReasonsOf c ctx =
      (PATTERN_MAP.filter (hitB c)).map Prod.fst ++
        (if 0 < (findPersonalInfoPatterns c).length then
          [FlagReason.personal_information] else []) := by
  unfold detectedReasonsOf scanResult
  rw [scan_reasons]
  split_ifs <;> simp

theorem totalConfidence_eq (c : List Char) (ctx : Option AnalysisContext) :
    totalConfidenceOf c ctx =
      ((PATTERN_MAP.filter (hitB c)).map (confOf c ctx)).sum +
        (if 0 < (findPersonalInfoPatterns c).length then (0.9 : ℚ) else 0) := by
  unfold totalConfidenceOf scanResult
  rw [scan_total]
  split_ifs <;> simp

theorem catalogSum_nonneg (c : List Char) (ctx : Option AnalysisContext) :
    0 ≤ ((PATTERN_MAP.filter (hitB c)).map (confOf c ctx)).sum := by
  apply List.sum_nonneg
  intro x hx
  obtain ⟨e, _, rfl⟩ := List.mem_map.mp hx
  exact calculateConfidence_nonneg _ _ _

theorem totalConfidence_nonneg (c : List Char) (ctx : Option AnalysisContext) :
    0 ≤ totalConfidenceOf c ctx := by
  rw [totalConfidence_eq]
  have hs := catalogSum_nonneg c ctx
  split_ifs <;> linarith

/-! ### Falsy fields and the combined text -/

theorem getD_empty_of_falsy {o : Option String} (h : strFalsy o = true) :
    o.getD "" = "" := by
  cases o with
  | none => rfl
  | some s =>
      have : s = "" := by simpa [strFalsy] using h
      simp [this]

theorem combined_empty_of_falsy (content : ContentItem)
    (ht : strFalsy content.text = true) (hu : strFalsy content.url = true) :
    combinedTextOf content = [] := by
  unfold combinedTextOf
  rw [getD_empty_of_falsy ht, getD_empty_of_falsy hu]
  decide

/-! ### Pattern membership and the die rule -/

theorem findPatternMatches_pos {c : List Char} {pats : List Pat} {p : Pat}
    (hm : p ∈ pats) (hp : p c = true) :
    0 < (findPatternMatches c pats).length := by
  have hmem : p ∈ findPatternMatches c pats := List.mem_filter.mpr ⟨hm, hp⟩
  exact List.length_pos.mpr (List.ne_nil_of_mem hmem)

theorem rlitCIAux_of_leadsLit : ∀ (pat s : List Char) (a : Option Char),
    leadsLit pat s = true → (rlitCIAux pat (a, s)).isEmpty = false
  | [], _, _, _ => rfl
  | p :: ps, [], _, h => absurd h (by simp [leadsLit])
  | p :: ps, c :: cs, a, h => by
      simp only [leadsLit, Bool.and_eq_true, beq_iff_eq] at h
      obtain ⟨rfl, h2⟩ := h
      simp only [rlitCIAux, if_pos rfl]
      exact rlitCIAux_of_leadsLit ps cs (some p) h2

theorem rxSearch_of_hasSub (pat : List Char) : ∀ (s : List Char) (a : Option Char),
    hasSub pat s = true → rxSearchAux (rlitCI pat) a s = true
  | [], a, h => by
      simp only [hasSub] at h
      simp only [rxSearchAux, rlitCI, rlitCIAux_of_leadsLit pat [] a h,
        Bool.not_false]
  | c :: cs, a, h => by
      simp only [hasSub, Bool.or_eq_true] at h
      rcases h with h | h
      · simp only [rxSearchAux, rlitCI, rlitCIAux_of_leadsLit pat (c :: cs) a h,
          Bool.not_false, Bool.true_or]
      · simp only [rxSearchAux, rxSearch_of_hasSub pat cs (some c) h, Bool.or_true]

theorem analyzeContent_reasons (request : ContentFlaggingRequest)
    (h : (strFalsy request.content.text && strFalsy request.content.url) = false) :
    (analyzeContent request).reasons =
      detectedReasonsOf (combinedTextOf request.content) request.context := by
  rw [analyzeContent_pipeline request h]

theorem analyzeContent_isFlagged (request : ContentFlaggingRequest)
    (h : (strFalsy request.content.text && strFalsy request.content.url) = false) :
    (analyzeContent request).isFlagged =
      (decide ((0.3 : ℚ) <
          adjustedConfidenceOf (combinedTextOf request.content) request.context) ||
        decide (0 <
          (detectedReasonsOf (combinedTextOf request.content) request.context).length)) := by
  rw [analyzeContent_pipeline request h]

theorem analyzeContent_confidence (request : ContentFlaggingRequest)
    (h : (strFalsy request.content.text && strFalsy request.content.url) = false) :
    (analyzeContent request).confidence =
      adjustedConfidenceOf (combinedTextOf request.content) request.context := by
  rw [analyzeContent_pipeline request h]
  exact min_eq_left (applyContextAdjustments_le_one _ _ _)

theorem analyzeContent_severity (request : ContentFlaggingRequest)
    (h : (strFalsy request.content.text && strFalsy request.content.url) = false) :
    (analyzeContent request).severity =
      maxSeverityOf (combinedTextOf request.content) request.context := by
  rw [analyzeContent_pipeline request h]

theorem analyzeContent_details (request : ContentFlaggingRequest)
    (h : (strFalsy request.content.text && strFalsy request.content.url) = false) :
    (analyzeContent request).details =
      some (generateDetails
        (detectedReasonsOf (combinedTextOf request.content) request.context)
        (adjustedConfidenceOf (combinedTextOf request.content) request.context)) := by
  rw [analyzeContent_pipeline request h]

theorem getSeverityForReason_harassment (confidence : ℚ) :
    getSeverityForReason FlagReason.harassment confidence = SeverityLevel.high := rfl

theorem catalog_reasons_nodup (c : List Char) :
    ((PATTERN_MAP.filter (hitB c)).map Prod.fst).Nodup := by
  have hsub : List.Sublist ((PATTERN_MAP.filter (hitB c)).map Prod.fst)
      (PATTERN_MAP.map Prod.fst) :=
    List.Sublist.map Prod.fst (List.filter_sublist PATTERN_MAP)
  have hmap : PATTERN_MAP.map Prod.fst = reasonOrder := by
    simp only [PATTERN_MAP, List.map_map]
    exact List.map_id reasonOrder
  have hnd : (PATTERN_MAP.map Prod.fst).Nodup := by
    rw [hmap]; decide
  exact hnd.sublist hsub

theorem one_lt_length_of_two_mem {α : Type} {l : List α} {a b : α}
    (ha : a ∈ l) (hb : b ∈ l) (hab : a ≠ b) : 1 < l.length := by
  match l with
  | [] => exact absurd ha (List.not_mem_nil a)
  | [x] =>
      rw [List.mem_singleton] at ha hb
      exact absurd (ha.trans hb.symm) hab
  | x :: y :: t => simp only [List.length_cons]; omega

/-! ### Concrete inputs used by the claims -/

/-- A request with fully validated identification fields, as the HTTP layer
hands the core. -/
def mkRequest (t u : Option String) (ctx : Option AnalysisContext) :
    ContentFlaggingRequest :=
  { content := { id := "content_1", userId := "user_1", type := .text, text := t, url := u }
  , context := ctx }

/-- A context with five prior flags and nothing else. -/
def repeatOffenderCtx : AnalysisContext := { previousFlags := some 5 }

/-! ### Claims -/

/-- C3: for every input, the confidence field of the FlagResult returned by
analyzeContent satisfies 0 ≤ confidence ≤ 1. -/
theorem C3_confidence_bounds (request : ContentFlaggingRequest) :
    0 ≤ (analyzeContent request).confidence ∧
      (analyzeContent request).confidence ≤ 1 := by
  rcases Bool.eq_false_or_eq_true
      (strFalsy request.content.text && strFalsy request.content.url) with h | h
  · rw [analyzeContent_clean request h]
    constructor <;> simp [createCleanResult]
  · rw [analyzeContent_pipeline request h]
    exact ⟨le_min (applyContextAdjustments_nonneg _ _ _
        (totalConfidence_nonneg _ _)) (by norm_num), min_le_right _ _⟩

/-- C4 (amended): when both text and url are JS-falsy (absent or the empty
string) the early return yields the clean result for every context; an input
whose combined text is empty only after trimming, such as a whitespace-only
text, instead runs the full pipeline, where context adjustments still apply. -/
theorem C4_amended_falsy_clean (request : ContentFlaggingRequest)
    (ht : strFalsy request.content.text = true)
    (hu : strFalsy request.content.url = true) :
    (analyzeContent request).isFlagged = false ∧
    (analyzeContent request).reasons = [] ∧
    (analyzeContent request).confidence = 0 ∧
    (analyzeContent request).severity = SeverityLevel.low := by
  rw [analyzeContent_clean request (by rw [ht, hu]; rfl)]
  exact ⟨rfl, rfl, rfl, rfl⟩

unseal Rat.add Rat.mul Rat.sub Rat.ofScientific in
/-- C4 counterexample: with text a single space and previousFlags 5, the
combined text is empty, yet analyzeContent flags the content with
confidence 0.4 instead of returning the clean result. -/
theorem C4_counterexample :
    combinedTextOf (mkRequest (some " ") none (some repeatOffenderCtx)).content = [] ∧
    (analyzeContent (mkRequest (some " ") none (some repeatOffenderCtx))).isFlagged = true ∧
    (analyzeContent (mkRequest (some " ") none (some repeatOffenderCtx))).confidence = 0.4 := by
  decide

/-- C4 witness: the amended statement at the input with absent text and url. -/
theorem C4_witness :
    (analyzeContent (mkRequest none none none)).isFlagged = false ∧
    (analyzeContent (mkRequest none none none)).reasons = [] ∧
    (analyzeContent (mkRequest none none none)).confidence = 0 ∧
    (analyzeContent (mkRequest none none none)).severity = SeverityLevel.low :=
  C4_amended_falsy_clean (mkRequest none none none) (by decide) (by decide)

unseal Rat.add Rat.mul Rat.sub Rat.ofScientific in
/-- C5: the SSN-and-phone example is flagged for personal_information with
severity high and confidence above 0.8. -/
theorem C5_ssn_phone_example :
    (analyzeContent (mkRequest
        (some "My SSN is 123-45-6789 and my phone is 555-123-4567") none none)).isFlagged
      = true ∧
    FlagReason.personal_information ∈ (analyzeContent (mkRequest
        (some "My SSN is 123-45-6789 and my phone is 555-123-4567") none none)).reasons ∧
    (analyzeContent (mkRequest
        (some "My SSN is 123-45-6789 and my phone is 555-123-4567") none none)).severity
      = SeverityLevel.high ∧
    (0.8 : ℚ) < (analyzeContent (mkRequest
        (some "My SSN is 123-45-6789 and my phone is 555-123-4567") none none)).confidence := by
  decide

unseal Rat.add Rat.mul Rat.sub Rat.ofScientific in
/-- C6: the severity of harassment is pinned at high for every per-category
confidence, and the kill-yourself example is flagged for harassment with
overall severity high. -/
theorem C6_harassment_severity_pinned :
    (∀ confidence : ℚ,
        getSeverityForReason FlagReason.harassment confidence = SeverityLevel.high) ∧
    (analyzeContent (mkRequest (some "You should kill yourself") none none)).isFlagged
        = true ∧
      FlagReason.harassment ∈ (analyzeContent (mkRequest
        (some "You should kill yourself") none none)).reasons ∧
      (analyzeContent (mkRequest (some "You should kill yourself") none none)).severity
        = SeverityLevel.high :=
  ⟨fun _ => rfl, by decide⟩

unseal Rat.add Rat.mul Rat.sub Rat.ofScientific in
/-- C1 counterexample: for clean text with previousFlags 5 no category hits,
so reasons is empty, yet the repeat-offender floor lifts the adjusted
confidence to 0.4 > 0.3 and analyzeContent flags the content: isFlagged is
not equivalent to a category hit, and the confidence threshold does fire as
sole trigger. -/
theorem C1_counterexample :
    (analyzeContent (mkRequest (some "hello") none (some repeatOffenderCtx))).reasons
        = [] ∧
    (analyzeContent (mkRequest (some "hello") none (some repeatOffenderCtx))).isFlagged
        = true ∧
    (analyzeContent (mkRequest (some "hello") none (some repeatOffenderCtx))).confidence
        = 0.4 := by
  decide

/-- C1 (amended): a non-empty reasons list always makes isFlagged true; and
when no category hit and the repeat-offender boost (previousFlags > 3) does
not apply, the adjusted confidence stays at most 0.3, so the content is not
flagged.  With the boost, the 0.4 floor crosses the 0.3 threshold even with
zero hit categories, so the threshold branch is reachable as sole trigger. -/
theorem C1_amended_flag_vs_hits (request : ContentFlaggingRequest) :
    ((analyzeContent request).reasons ≠ [] → (analyzeContent request).isFlagged = true) ∧
    ((analyzeContent request).reasons = [] → prevFlagsGT3 request.context = false →
      (analyzeContent request).isFlagged = false) := by
  rcases Bool.eq_false_or_eq_true
      (strFalsy request.content.text && strFalsy request.content.url) with h | h
  · rw [analyzeContent_clean request h]
    exact ⟨fun hne => absurd rfl hne, fun _ _ => rfl⟩
  · constructor
    · intro hne
      rw [analyzeContent_isFlagged request h]
      rw [analyzeContent_reasons request h] at hne
      simp [List.length_pos.mpr hne]
    · intro hnil hboost
      rw [analyzeContent_reasons request h] at hnil
      have hnil2 := hnil
      rw [detectedReasons_eq] at hnil2
      rcases List.append_eq_nil.mp hnil2 with ⟨h1, h2⟩
      have hpi : ¬ 0 < (findPersonalInfoPatterns (combinedTextOf request.content)).length := by
        intro hp
        rw [if_pos hp] at h2
        exact absurd h2 (by simp)
      have hfil : PATTERN_MAP.filter (hitB (combinedTextOf request.content)) = [] := by
        simpa using h1
      have htot : totalConfidenceOf (combinedTextOf request.content) request.context = 0 := by
        rw [totalConfidence_eq, hfil, if_neg hpi]
        simp
      have hadj : adjustedConfidenceOf (combinedTextOf request.content) request.context
          ≤ 0.3 := by
        unfold adjustedConfidenceOf
        rw [htot, hnil]
        simpa using applyContextAdjustments_zero request.context hboost
      rw [analyzeContent_isFlagged request h]
      simp [hnil, not_lt.mpr hadj]

/-- C1 witness: the amended statement at a spam url (hit, flagged) and at
clean text with no context (no hit, not flagged). -/
theorem C1_witness :
    (analyzeContent (mkRequest (some "tinyurl") none none)).isFlagged = true ∧
    (analyzeContent (mkRequest (some "hello") none none)).isFlagged = false :=
  ⟨(C1_amended_flag_vs_hits (mkRequest (some "tinyurl") none none)).1 (by decide),
   (C1_amended_flag_vs_hits (mkRequest (some "hello") none none)).2 (by decide) (by decide)⟩

/-- C2 counterexample: a bare SSN matches the personal-information rules both
through the generic catalog and through the dedicated check, so
personal_information appears twice in reasons. -/
theorem C2_counterexample :
    (analyzeContent (mkRequest (some "123-45-6789") none none)).reasons =
      [FlagReason.personal_information, FlagReason.personal_information] := by
  decide

/-- C2 (amended): the catalog loop pushes every category at most once, so a
category other than personal_information never repeats in reasons; but
personal_information is pushed again by the dedicated check whenever a
personal-information rule matches, so its count can reach two. -/
theorem C2_amended_reason_counts (request : ContentFlaggingRequest) (r : FlagReason) :
    (r ≠ FlagReason.personal_information → (analyzeContent request).reasons.count r ≤ 1) ∧
    (analyzeContent request).reasons.count FlagReason.personal_information ≤ 2 := by
  rcases Bool.eq_false_or_eq_true
      (strFalsy request.content.text && strFalsy request.content.url) with h | h
  · rw [analyzeContent_clean request h]
    exact ⟨fun _ => by simp [createCleanResult], by simp [createCleanResult]⟩
  · rw [analyzeContent_reasons request h, detectedReasons_eq]
    have hcount : ∀ r2 : FlagReason,
        ((PATTERN_MAP.filter (hitB (combinedTextOf request.content))).map Prod.fst).count r2
          ≤ 1 :=
      List.nodup_iff_count_le_one.mp (catalog_reasons_nodup _)
    constructor
    · intro hr
      rw [List.count_append]
      have h2 : (if 0 < (findPersonalInfoPatterns (combinedTextOf request.content)).length
          then [FlagReason.personal_information] else []).count r = 0 := by
        split_ifs <;> simp [List.count_cons, hr]
      have h1 := hcount r
      omega
    · rw [List.count_append]
      have h2 : (if 0 < (findPersonalInfoPatterns (combinedTextOf request.content)).length
          then [FlagReason.personal_information] else []).count
            FlagReason.personal_information ≤ 1 := by
        split_ifs <;> simp
      have h1 := hcount FlagReason.personal_information
      omega

/-- C2 witness: the amended statement at the SSN input, for the spam count
and the personal_information count. -/
theorem C2_witness :
    (analyzeContent (mkRequest (some "123-45-6789") none none)).reasons.count
        FlagReason.spam ≤ 1 ∧
    (analyzeContent (mkRequest (some "123-45-6789") none none)).reasons.count
        FlagReason.personal_information ≤ 2 :=
  ⟨(C2_amended_reason_counts (mkRequest (some "123-45-6789") none none)
      FlagReason.spam).1 (by decide),
   (C2_amended_reason_counts (mkRequest (some "123-45-6789") none none)
      FlagReason.spam).2⟩

/-- C7 counterexample: previousFlags 5 with absent text and url takes the
early clean return, so the confidence is 0, below the claimed 0.4 floor. -/
theorem C7_counterexample :
    prevFlagsGT3 (mkRequest none none (some repeatOffenderCtx)).context = true ∧
    (analyzeContent (mkRequest none none (some repeatOffenderCtx))).confidence = 0 := by
  decide

/-- C7 (amended): for every input that reaches the analysis pipeline (text or
url truthy), a context with previousFlags > 3 (such as previousFlags 5)
forces the final confidence to at least 0.4; the early clean return for
falsy text and url is exempt and keeps confidence 0. -/
theorem C7_amended_repeat_offender_floor (request : ContentFlaggingRequest)
    (h : (strFalsy request.content.text && strFalsy request.content.url) = false)
    (hb : prevFlagsGT3 request.context = true) :
    (0.4 : ℚ) ≤ (analyzeContent request).confidence := by
  rw [analyzeContent_confidence request h]
  exact applyContextAdjustments_boost_ge _ _ _ hb

/-- C7 witness: the amended statement at clean text with previousFlags 5. -/
theorem C7_witness :
    (0.4 : ℚ) ≤
      (analyzeContent (mkRequest (some "hello") none (some repeatOffenderCtx))).confidence :=
  C7_amended_repeat_offender_floor (mkRequest (some "hello") none (some repeatOffenderCtx))
    (by decide) (by decide)

/-- C9 counterexample: with both text and url absent, the early clean result
carries no details field at all. -/
theorem C9_counterexample :
    (analyzeContent (mkRequest none none none)).details = none := by
  decide

/-- C9 (amended): on the analysis path (text or url truthy) details is always
present: the clean sentence when reasons is empty, otherwise the Detected
sentence built from the comma-joined reasons and the rounded percentage of
the returned confidence; on the early return for absent text and url the
details field is absent. -/
theorem C9_amended_details_format (request : ContentFlaggingRequest)
    (h : (strFalsy request.content.text && strFalsy request.content.url) = false) :
    ((analyzeContent request).reasons = [] →
      (analyzeContent request).details = some "Content appears to be clean") ∧
    ((analyzeContent request).reasons ≠ [] →
      (analyzeContent request).details = some ("Detected " ++
        String.intercalate ", " ((analyzeContent request).reasons.map reasonText) ++
        " with " ++ toString (jsRound ((analyzeContent request).confidence * 100)) ++
        "% confidence")) := by
  have hconf := analyzeContent_confidence request h
  have hdet := analyzeContent_details request h
  have hreas := analyzeContent_reasons request h
  constructor
  · intro hnil
    rw [hreas] at hnil
    rw [hdet, hnil]
    simp [generateDetails]
  · intro hne
    rw [hreas] at hne
    rw [hdet, hreas, hconf]
    have hlen : ¬ (detectedReasonsOf (combinedTextOf request.content)
        request.context).length = 0 := by
      simpa [List.length_eq_zero] using hne
    simp [generateDetails, hlen]

/-- C9 witness: the amended statement at clean text (empty reasons). -/
theorem C9_witness :
    (analyzeContent (mkRequest (some "hello") none none)).details =
      some "Content appears to be clean" :=
  (C9_amended_details_format (mkRequest (some "hello") none none) (by decide)).1 (by decide)

/-- C10: every input whose combined text contains the substring die, also
inside ordinary words, is flagged with harassment among the reasons and
overall severity at least high, because of the unanchored case-insensitive
die rule in the harassment set. -/
theorem C10_die_substring (request : ContentFlaggingRequest)
    (h : hasSub "die".data (combinedTextOf request.content) = true) :
    (analyzeContent request).isFlagged = true ∧
    FlagReason.harassment ∈ (analyzeContent request).reasons ∧
    sevIdx SeverityLevel.high ≤ sevIdx (analyzeContent request).severity := by
  have hf : (strFalsy request.content.text && strFalsy request.content.url) = false := by
    rcases Bool.eq_false_or_eq_true
        (strFalsy request.content.text && strFalsy request.content.url) with hb | hb
    · exfalso
      simp only [Bool.and_eq_true] at hb
      obtain ⟨h1, h2⟩ := hb
      rw [combined_empty_of_falsy request.content h1 h2] at h
      exact absurd h (by decide)
    · exact hb
  have hdie : rpat (rlitCI "die".data) (combinedTextOf request.content) = true :=
    rxSearch_of_hasSub "die".data (combinedTextOf request.content) none h
  have hmem : rpat (rlitCI "die".data) ∈ patternsFor FlagReason.harassment := by
    simp [patternsFor, HARASSMENT_PATTERNS_threats, HARASSMENT_PATTERNS_intimidation]
  have hhit : 0 < (findPatternMatches (combinedTextOf request.content)
      (patternsFor FlagReason.harassment)).length :=
    findPatternMatches_pos hmem hdie
  have hentry : (FlagReason.harassment, patternsFor FlagReason.harassment) ∈ PATTERN_MAP :=
    List.mem_map.mpr ⟨FlagReason.harassment, by decide, rfl⟩
  have hmemF : (FlagReason.harassment, patternsFor FlagReason.harassment) ∈
      PATTERN_MAP.filter (hitB (combinedTextOf request.content)) :=
    List.mem_filter.mpr ⟨hentry, by simpa [hitB] using hhit⟩
  have hrmem : FlagReason.harassment ∈
      detectedReasonsOf (combinedTextOf request.content) request.context := by
    rw [detectedReasons_eq]
    exact List.mem_append_left _ (List.mem_map.mpr ⟨_, hmemF, rfl⟩)
  refine ⟨?_, ?_, ?_⟩
  · rw [analyzeContent_isFlagged request hf]
    simp [List.length_pos.mpr (List.ne_nil_of_mem hrmem)]
  · rw [analyzeContent_reasons request hf]
    exact hrmem
  · rw [analyzeContent_severity request hf]
    have hthis := scan_sev_of_hit (combinedTextOf request.content) request.context
      PATTERN_MAP ([], 0, .low) (FlagReason.harassment, patternsFor FlagReason.harassment)
      hentry (by simpa [hitB] using hhit)
    have h2 : sevIdx (getSeverityForReason
        (FlagReason.harassment, patternsFor FlagReason.harassment).1
        (confOf (combinedTextOf request.content) request.context
          (FlagReason.harassment, patternsFor FlagReason.harassment))) =
        sevIdx SeverityLevel.high := rfl
    have hscan : sevIdx SeverityLevel.high ≤
        sevIdx (scanResult (combinedTextOf request.content) request.context).2.2 :=
      le_trans (le_of_eq h2.symm) hthis
    unfold maxSeverityOf
    split_ifs with hpi
    · exact le_trans hscan (sevIdx_le_getHigher_left _ _)
    · exact hscan

/-- C10 witness: the word diet contains die, so it is flagged for harassment
with severity at least high. -/
theorem C10_witness :
    hasSub "die".data (combinedTextOf (mkRequest (some "diet") none none).content) = true ∧
    ((analyzeContent (mkRequest (some "diet") none none)).isFlagged = true ∧
      FlagReason.harassment ∈ (analyzeContent (mkRequest (some "diet") none none)).reasons ∧
      sevIdx SeverityLevel.high ≤
        sevIdx (analyzeContent (mkRequest (some "diet") none none)).severity) :=
  ⟨by decide, C10_die_substring (mkRequest (some "diet") none none) (by decide)⟩

unseal Rat.add Rat.mul Rat.sub Rat.ofScientific in
/-- C8 counterexample: a text hitting four spam rules and the die rule has
spam solo confidence exactly 1; the final confidence is clamped to 1, so it
is not strictly greater than the spam solo confidence. -/
theorem C8_counterexample :
    0 < (soloMatches (mkRequest (some "click here for free money act now no risk die")
        none none) FlagReason.spam).length ∧
    0 < (soloMatches (mkRequest (some "click here for free money act now no risk die")
        none none) FlagReason.harassment).length ∧
    ¬ (soloConfidence (mkRequest (some "click here for free money act now no risk die")
        none none) FlagReason.spam <
      (analyzeContent (mkRequest (some "click here for free money act now no risk die")
        none none)).confidence) := by
  decide

/-- C8 (amended): a text hitting at least one spam rule and at least one
harassment rule has more than one reason, and the final confidence is at
least each solo per-category confidence, strictly greater whenever that solo
confidence is below 1 (the clamp at 1 permits equality when a solo confidence
already saturates). -/
theorem C8_amended_multiplicity (request : ContentFlaggingRequest)
    (hs : 0 < (soloMatches request FlagReason.spam).length)
    (hh : 0 < (soloMatches request FlagReason.harassment).length) :
    1 < (analyzeContent request).reasons.length ∧
    soloConfidence request FlagReason.spam ≤ (analyzeContent request).confidence ∧
    soloConfidence request FlagReason.harassment ≤ (analyzeContent request).confidence ∧
    (soloConfidence request FlagReason.spam < 1 →
      soloConfidence request FlagReason.spam < (analyzeContent request).confidence) ∧
    (soloConfidence request FlagReason.harassment < 1 →
      soloConfidence request FlagReason.harassment < (analyzeContent request).confidence) := by
  have hf : (strFalsy request.content.text && strFalsy request.content.url) = false := by
    rcases Bool.eq_false_or_eq_true
        (strFalsy request.content.text && strFalsy request.content.url) with hb | hb
    · exfalso
      simp only [Bool.and_eq_true] at hb
      obtain ⟨h1, h2⟩ := hb
      have hc := combined_empty_of_falsy request.content h1 h2
      unfold soloMatches at hs
      rw [hc] at hs
      have hz : (findPatternMatches [] (patternsFor FlagReason.spam)).length = 0 := by decide
      omega
    · exact hb
  have hentryS : (FlagReason.spam, patternsFor FlagReason.spam) ∈ PATTERN_MAP :=
    List.mem_map.mpr ⟨FlagReason.spam, by decide, rfl⟩
  have hentryH : (FlagReason.harassment, patternsFor FlagReason.harassment) ∈ PATTERN_MAP :=
    List.mem_map.mpr ⟨FlagReason.harassment, by decide, rfl⟩
  have hmemFS : (FlagReason.spam, patternsFor FlagReason.spam) ∈
      PATTERN_MAP.filter (hitB (combinedTextOf request.content)) :=
    List.mem_filter.mpr ⟨hentryS, by simpa [hitB, soloMatches] using hs⟩
  have hmemFH : (FlagReason.harassment, patternsFor FlagReason.harassment) ∈
      PATTERN_MAP.filter (hitB (combinedTextOf request.content)) :=
    List.mem_filter.mpr ⟨hentryH, by simpa [hitB, soloMatches] using hh⟩
  have hlen2 : 1 <
      ((PATTERN_MAP.filter (hitB (combinedTextOf request.content))).map Prod.fst).length := by
    rw [List.length_map]
    exact one_lt_length_of_two_mem hmemFS hmemFH (by simp)
  have hlenR : 1 <
      (detectedReasonsOf (combinedTextOf request.content) request.context).length := by
    rw [detectedReasons_eq, List.length_append]
    omega
  have hconf := analyzeContent_confidence request hf
  have hsum_ge : ∀ r : FlagReason,
      (r, patternsFor r) ∈ PATTERN_MAP.filter (hitB (combinedTextOf request.content)) →
      soloConfidence request r ≤
        totalConfidenceOf (combinedTextOf request.content) request.context := by
    intro r hrF
    rw [totalConfidence_eq]
    have hmemMap : soloConfidence request r ∈
        (PATTERN_MAP.filter (hitB (combinedTextOf request.content))).map
          (confOf (combinedTextOf request.content) request.context) :=
      List.mem_map.mpr ⟨_, hrF, rfl⟩
    have hnn : ∀ x ∈ (PATTERN_MAP.filter (hitB (combinedTextOf request.content))).map
        (confOf (combinedTextOf request.content) request.context), (0 : ℚ) ≤ x := by
      intro x hx
      obtain ⟨e, _, rfl⟩ := List.mem_map.mp hx
      exact calculateConfidence_nonneg _ _ _
    have hle := List.single_le_sum hnn _ hmemMap
    split_ifs <;> linarith
  have hgeS := hsum_ge FlagReason.spam hmemFS
  have hgeH := hsum_ge FlagReason.harassment hmemFH
  have hadj_ge : min (totalConfidenceOf (combinedTextOf request.content) request.context
      + 0.1) 1 ≤ adjustedConfidenceOf (combinedTextOf request.content) request.context := by
    unfold adjustedConfidenceOf
    exact applyContextAdjustments_ge _ _ _ hlenR
  have hs1 : soloConfidence request FlagReason.spam ≤ 1 := calculateConfidence_le_one _ _ _
  have hh1 : soloConfidence request FlagReason.harassment ≤ 1 :=
    calculateConfidence_le_one _ _ _
  refine ⟨?_, ?_, ?_, ?_, ?_⟩
  · rw [analyzeContent_reasons request hf]
    exact hlenR
  · rw [hconf]
    have hle : soloConfidence request FlagReason.spam ≤
        min (totalConfidenceOf (combinedTextOf request.content) request.context + 0.1) 1 :=
      le_min (by linarith) hs1
    linarith
  · rw [hconf]
    have hle : soloConfidence request FlagReason.harassment ≤
        min (totalConfidenceOf (combinedTextOf request.content) request.context + 0.1) 1 :=
      le_min (by linarith) hh1
    linarith
  · intro hlt
    rw [hconf]
    have hle : soloConfidence request FlagReason.spam <
        min (totalConfidenceOf (combinedTextOf request.content) request.context + 0.1) 1 :=
      lt_min (by linarith) hlt
    linarith
  · intro hlt
    rw [hconf]
    have hle : soloConfidence request FlagReason.harassment <
        min (totalConfidenceOf (combinedTextOf request.content) request.context + 0.1) 1 :=
      lt_min (by linarith) hlt
    linarith

unseal Rat.add Rat.mul Rat.sub Rat.ofScientific in
/-- C8 witness: the amended statement at a text hitting one spam rule and one
harassment rule, where both solo confidences are 0.4 and the final confidence
is 0.9. -/
theorem C8_witness :
    1 < (analyzeContent (mkRequest (some "click here die") none none)).reasons.length ∧
    (soloConfidence (mkRequest (some "click here die") none none) FlagReason.spam <
      (analyzeContent (mkRequest (some "click here die") none none)).confidence) :=
  ⟨(C8_amended_multiplicity (mkRequest (some "click here die") none none)
      (by decide) (by decide)).1,
   (C8_amended_multiplicity (mkRequest (some "click here die") none none)
      (by decide) (by decide)).2.2.2.1 (by decide)⟩

end ContentFlagging
